import Mathlib

/-!
Verification of the devboard-backend core components against their
natural-language specification.

The development shallowly embeds the two components with actual logic:

* the streak-calculation algorithm of `src/models/streak.model.js`
  (`Streak.calculateCurrentStreak`) together with the aggregation queries of
  `src/controllers/streak.controller.js` (`getStreakStats`, `updateStreak`);
* the time-bucketed external-API response cache of
  `src/services/github.service.js` (`GitHubService`) and of the StackOverflow
  service (`StackOverflowService.cachedRequest`).

Dates stored with the DATEONLY column type are modelled as integer day
numbers (days since an arbitrary epoch): the stored values are pure calendar
dates rendered at midnight, so the millisecond difference between two of them
is an exact multiple of a day and `Math.ceil(diffMs / dayMs)` equals the
integer day difference.
-/

/-! ## StreakEngine: `Streak.calculateCurrentStreak` (streak.model.js lines 66-128) -/

/-- Result record of the streak computation:
`{ currentStreak, longestStreak, lastActiveDate }`. -/
structure StreakResult where
  currentStreak : Nat
  longestStreak : Nat
  lastActiveDate : Option Int
deriving Repr, DecidableEq

/-- One iteration of the `for (const entry of streakEntries)` loop of
`calculateCurrentStreak`.  The state is `(longestStreak, tempStreak, prevDate)`.
`diffDays` is the exact calendar-day difference (see the module comment on
`Math.ceil`). -/
def streakStep (st : Nat × Nat × Option Int) (entry : Int) : Nat × Nat × Option Int :=
  match st.2.2 with
  | none => (st.1, 1, some entry)
  | some prevDate =>
    let diffDays := prevDate - entry
    if diffDays = 1 then
      (st.1, st.2.1 + 1, some entry)
    else
      (if st.2.1 > st.1 then st.2.1 else st.1, 1, some entry)

/-- Embedding of `Streak.calculateCurrentStreak`.  `today` is the clock value
(already truncated to a calendar day) and `entries` is the result of the
`findAll` query: the user's activity dates ordered descending (they are
pairwise distinct by the unique `(userId, date)` index).  After the loop the
source compares `tempStreak` with `longestStreak` one final time and then sets
`currentStreak = isActive ? tempStreak : 0`. -/
def calculateCurrentStreak (today : Int) (entries : List Int) : StreakResult :=
  match entries with
  | [] => ⟨0, 0, none⟩
  | first :: rest =>
    let yesterday := today - 1
    let isActive := first = today ∨ first = yesterday
    let st := (first :: rest).foldl streakStep (0, 0, none)
    let longestStreak := if st.2.1 > st.1 then st.2.1 else st.1
    ⟨if isActive then st.2.1 else 0, longestStreak, some first⟩

/-- C1: the claim says that for the date set
`{today, today-2, today-3, today-4}` the computation returns
`currentStreak = 1` (the run containing the most recent date, gated on the
most recent date being today or yesterday).  Evaluating the embedded source
algorithm at that input instead gives `currentStreak = 3`: the loop walks the
dates in descending order, so the `tempStreak` value left over after the loop
is the length of the run containing the *oldest* date, and it is that value
the source assigns to `currentStreak` when the most recent entry is today or
yesterday. -/
theorem calculateCurrentStreak_gap_eval :
    calculateCurrentStreak 100 [100, 98, 97, 96] =
      { currentStreak := 3, longestStreak := 3, lastActiveDate := some 100 } := by
  decide

/-- C7: for every activity-date list, `longestStreak ≥ currentStreak`. -/
theorem longestStreak_ge_currentStreak (today : Int) (entries : List Int) :
    (calculateCurrentStreak today entries).currentStreak ≤
      (calculateCurrentStreak today entries).longestStreak := by
  cases entries with
  | nil => simp [calculateCurrentStreak]
  | cons first rest =>
    simp only [calculateCurrentStreak]
    split <;> split <;> omega

/-- C8: the empty record set yields exactly
`{currentStreak: 0, longestStreak: 0, lastActiveDate: null}`, and the
computation is a total function: it produces a result for every input. -/
theorem calculateCurrentStreak_empty (today : Int) :
    calculateCurrentStreak today [] = ⟨0, 0, none⟩ ∧
      ∀ entries : List Int, ∃ r : StreakResult, calculateCurrentStreak today entries = r :=
  ⟨rfl, fun entries => ⟨calculateCurrentStreak today entries, rfl⟩⟩

/-! ## Streak statistics: `getStreakStats` (streak.controller.js lines 225-284)

The controller issues three aggregation queries over the rows of one user:
a `GROUP BY language` count restricted by `language IS NOT NULL` and ordered
by count descending, a `GROUP BY date_trunc('month', date)` count over all
rows ordered by month ascending, and a plain `COUNT(*)`.  Rows are modelled
with their calendar date and optional language; grouping is modelled by a
fold that bumps the count of the matching key. -/

/-- Calendar date as stored by the DATEONLY column. -/
structure CalendarDate where
  year : Nat
  month : Nat
  day : Nat
deriving Repr, DecidableEq

/-- One activity row as seen by the statistics queries. -/
structure StatRecord where
  date : CalendarDate
  language : Option String
deriving Repr, DecidableEq

/-- Increment the count stored for key `k`, inserting the key at count 1 when
absent (the grouped `COUNT`). -/
def bumpCount {α : Type} [DecidableEq α] (k : α) : List (α × Nat) → List (α × Nat)
  | [] => [(k, 1)]
  | (k', n) :: rest => if k' = k then (k, n + 1) :: rest else (k', n) :: bumpCount k rest

/-- Total of the counts of a grouped distribution. -/
def sumCounts {α : Type} : List (α × Nat) → Nat
  | [] => 0
  | x :: l => x.2 + sumCounts l

/-- One row's contribution to the language distribution: rows with
`language IS NULL` are excluded by the `WHERE` clause. -/
def langStep (acc : List (String × Nat)) (r : StatRecord) : List (String × Nat) :=
  match r.language with
  | some l => bumpCount l acc
  | none => acc

/-- Grouped language counts (`GROUP BY language` with `language IS NOT NULL`). -/
def languageCounts (rs : List StatRecord) : List (String × Nat) :=
  rs.foldl langStep []

/-- Ordering used by `ORDER BY count DESC`. -/
def countGe (a b : String × Nat) : Prop := b.2 ≤ a.2

instance : DecidableRel countGe :=
  fun a b => inferInstanceAs (Decidable (b.2 ≤ a.2))

/-- The language distribution returned by `getStreakStats`. -/
def languageDistribution (rs : List StatRecord) : List (String × Nat) :=
  List.insertionSort countGe (languageCounts rs)

/-- The month key produced by `date_trunc('month', date)`. -/
def monthKey (r : StatRecord) : Nat × Nat := (r.date.year, r.date.month)

/-- One row's contribution to the monthly distribution: every row counts. -/
def monthStep (acc : List ((Nat × Nat) × Nat)) (r : StatRecord) : List ((Nat × Nat) × Nat) :=
  bumpCount (monthKey r) acc

/-- Grouped monthly counts (`GROUP BY date_trunc('month', date)`). -/
def monthlyCounts (rs : List StatRecord) : List ((Nat × Nat) × Nat) :=
  rs.foldl monthStep []

/-- Ordering used by `ORDER BY month ASC`. -/
def monthLe (a b : (Nat × Nat) × Nat) : Prop :=
  a.1.1 < b.1.1 ∨ (a.1.1 = b.1.1 ∧ a.1.2 ≤ b.1.2)

instance : DecidableRel monthLe :=
  fun a b => by unfold monthLe; exact inferInstance

/-- The monthly activity distribution returned by `getStreakStats`. -/
def monthlyActivity (rs : List StatRecord) : List ((Nat × Nat) × Nat) :=
  List.insertionSort monthLe (monthlyCounts rs)

/-- The `total` field of the statistics response (`COUNT(*)` for the user). -/
def totalCount (rs : List StatRecord) : Nat := rs.length

theorem sumCounts_bumpCount {α : Type} [DecidableEq α] (k : α) (l : List (α × Nat)) :
    sumCounts (bumpCount k l) = sumCounts l + 1 := by
  induction l with
  | nil => rfl
  | cons x l ih =>
    obtain ⟨k', n⟩ := x
    by_cases h : k' = k
    · simp [bumpCount, h, sumCounts]
      omega
    · simp [bumpCount, h, sumCounts, ih]
      omega

theorem sumCounts_eq_map_sum {α : Type} (l : List (α × Nat)) :
    sumCounts l = (l.map Prod.snd).sum := by
  induction l with
  | nil => rfl
  | cons x l ih => simp [sumCounts, ih]

theorem sumCounts_insertionSort {α : Type} (r : α × Nat → α × Nat → Prop)
    [DecidableRel r] (l : List (α × Nat)) :
    sumCounts (List.insertionSort r l) = sumCounts l := by
  rw [sumCounts_eq_map_sum, sumCounts_eq_map_sum]
  exact ((List.perm_insertionSort r l).map Prod.snd).sum_eq

theorem sumCounts_langFold (rs : List StatRecord) :
    ∀ acc, sumCounts (rs.foldl langStep acc) =
      sumCounts acc + (rs.filter (fun r => r.language.isSome)).length := by
  induction rs with
  | nil => intro acc; simp
  | cons r rs ih =>
    intro acc
    rw [List.foldl_cons, ih]
    cases hl : r.language with
    | none => simp [langStep, hl, List.filter_cons]
    | some l =>
      simp [langStep, hl, List.filter_cons, sumCounts_bumpCount]
      omega

theorem langFold_filter (rs : List StatRecord) :
    ∀ acc, rs.foldl langStep acc =
      (rs.filter (fun r => r.language.isSome)).foldl langStep acc := by
  induction rs with
  | nil => intro acc; rfl
  | cons r rs ih =>
    intro acc
    cases hl : r.language with
    | none => simp [List.filter_cons, hl, langStep, ih]
    | some l => simp [List.filter_cons, hl, langStep, ih]

theorem sumCounts_monthFold (rs : List StatRecord) :
    ∀ acc, sumCounts (rs.foldl monthStep acc) = sumCounts acc + rs.length := by
  induction rs with
  | nil => intro acc; simp
  | cons r rs ih =>
    intro acc
    rw [List.foldl_cons, ih]
    simp only [monthStep, sumCounts_bumpCount, List.length_cons]
    omega

/-- C10: the language distribution counts exactly the rows whose language is
non-null and is computed from those rows alone, while the monthly distribution
and the `total` field cover every row of the user. -/
theorem getStreakStats_distributions (rs : List StatRecord) :
    sumCounts (languageDistribution rs) = (rs.filter (fun r => r.language.isSome)).length ∧
    languageDistribution rs = languageDistribution (rs.filter (fun r => r.language.isSome)) ∧
    sumCounts (monthlyActivity rs) = rs.length ∧
    totalCount rs = rs.length := by
  refine ⟨?_, ?_, ?_, rfl⟩
  · rw [languageDistribution, languageCounts, sumCounts_insertionSort, sumCounts_langFold]
    simp [sumCounts]
  · rw [languageDistribution, languageDistribution, languageCounts, languageCounts,
      langFold_filter rs]
  · rw [monthlyActivity, monthlyCounts, sumCounts_insertionSort, sumCounts_monthFold]
    simp [sumCounts]

/-! ## Direct edit endpoint: `updateStreak` (streak.controller.js lines 145-184)

The controller looks the row up by `(id, userId)` (the store's job, not
modelled), guards GitHub-sourced rows, and then applies the spread
`{...(req.body.date && ...), ...(description !== undefined && ...),
...(language && ...), ...(commitCount !== undefined && ...)}`.  The body
fields are `none` when absent from the JSON body; `new Date(req.body.date)`
is modelled by the date string itself since the controller does no arithmetic
on it.  Records synced from GitHub carry `source = "github"` (the enum of the
model is `('github', 'manual')`). -/

/-- One persisted activity row as the edit endpoint sees it. -/
structure StreakRow where
  date : String
  description : Option String
  language : Option String
  commitCount : Int
  source : String
deriving Repr, DecidableEq

/-- Request body of `PATCH /api/v1/streaks/:id`; `none` means the field is
absent. -/
structure UpdateBody where
  date : Option String
  description : Option String
  language : Option String
  commitCount : Option Int
deriving Repr, DecidableEq

/-- JavaScript truthiness of an optional string field (absent and the empty
string are falsy). -/
def truthyStr : Option String → Bool
  | some s => decide (s ≠ "")
  | none => false

/-- JavaScript truthiness of an optional integer field (absent and `0` are
falsy). -/
def truthyInt : Option Int → Bool
  | some n => decide (n ≠ 0)
  | none => false

/-- Embedding of the `updateStreak` controller after the row lookup: the
guard `streak.source === 'github' && (req.body.date || req.body.commitCount)`
answers 400, otherwise the conditional spread is applied and the updated row
returned. -/
def updateStreak (streak : StreakRow) (body : UpdateBody) : Except (String × Nat) StreakRow :=
  if streak.source = "github" ∧ (truthyStr body.date = true ∨ truthyInt body.commitCount = true) then
    .error ("Cannot update date or commit count for GitHub streaks", 400)
  else
    .ok { streak with
      date := match body.date with
        | some d => if d = "" then streak.date else d
        | none => streak.date
      description := match body.description with
        | some d => some d
        | none => streak.description
      language := match body.language with
        | some l => if l = "" then streak.language else some l
        | none => streak.language
      commitCount := match body.commitCount with
        | some n => n
        | none => streak.commitCount }

/-- C6 counterexample: the claim says a GitHub-sourced record is left
entirely unchanged by every owner edit request.  For the concrete
GitHub-sourced row below, a body carrying only a description passes the
guard and the returned row differs from the stored one: the description was
changed through the endpoint. -/
theorem updateStreak_github_description_changes :
    updateStreak ⟨"2024-01-01", none, none, 5, "github"⟩ ⟨none, some "x", none, none⟩ =
      .ok ⟨"2024-01-01", some "x", none, 5, "github"⟩ ∧
    (⟨"2024-01-01", some "x", none, 5, "github"⟩ : StreakRow) ≠
      ⟨"2024-01-01", none, none, 5, "github"⟩ :=
  ⟨rfl, by decide⟩

/-- C6 amended: for a GitHub-sourced record the endpoint rejects with 400 any
body whose `date` is truthy or whose `commitCount` is truthy (non-zero),
leaving the record untouched; but a body carrying only a description is
applied, so the description (like the language) remains modifiable through
the endpoint. -/
theorem updateStreak_github_guard (streak : StreakRow) (body : UpdateBody)
    (hsrc : streak.source = "github") :
    (truthyStr body.date = true ∨ truthyInt body.commitCount = true →
      updateStreak streak body =
        .error ("Cannot update date or commit count for GitHub streaks", 400)) ∧
    (∀ d : String, body.date = none → body.commitCount = none →
      body.description = some d → body.language = none →
      updateStreak streak body =
        .ok { streak with description := some d }) := by
  constructor
  · intro h
    rw [updateStreak, if_pos ⟨hsrc, h⟩]
  · intro d hdate hcc hdesc hlang
    have hguard : ¬(streak.source = "github" ∧
        (truthyStr body.date = true ∨ truthyInt body.commitCount = true)) := by
      simp [hdate, hcc, truthyStr, truthyInt]
    rw [updateStreak, if_neg hguard, hdate, hcc, hdesc, hlang]

/-- Witness for `updateStreak_github_guard` at a concrete row and two concrete
bodies. -/
theorem updateStreak_github_guard_witness :
    updateStreak ⟨"2024-01-01", none, none, 5, "github"⟩ ⟨some "2024-02-02", none, none, none⟩ =
      .error ("Cannot update date or commit count for GitHub streaks", 400) ∧
    updateStreak ⟨"2024-01-01", none, none, 5, "github"⟩ ⟨none, some "y", none, none⟩ =
      .ok ⟨"2024-01-01", some "y", none, 5, "github"⟩ :=
  ⟨(updateStreak_github_guard ⟨"2024-01-01", none, none, 5, "github"⟩
      ⟨some "2024-02-02", none, none, none⟩ rfl).1 (Or.inl (by decide)),
   (updateStreak_github_guard ⟨"2024-01-01", none, none, 5, "github"⟩
      ⟨none, some "y", none, none⟩ rfl).2 "y" rfl rfl rfl rfl⟩

/-! ## ExternalProfileCache: module-level cache of the provider services

Both `github.service.js` and the StackOverflow service keep a module-level
`cache = { data: {}, timestamps: {} }` object and a `CACHE_DURATION` in
seconds.  JSON payloads are modelled by `JsValue`; the fetch performed by
axios is modelled by its outcome, an `Except JsError JsValue` argument, and
each `cachedRequest` additionally reports how many times it invoked the fetch
(0 or 1), so that invocation counts are observable.  Note the freshness test
of the source, `cache.data[cacheKey] && now - cache.timestamps[cacheKey] <
CACHE_DURATION * 1000`, evaluates the stored payload for truthiness. -/

mutual
/-- A JSON value as JavaScript sees it. -/
inductive JsValue where
  | null
  | bool (b : Bool)
  | num (n : Int)
  | str (s : String)
  | arr (elems : JsArray)
  | obj (fields : JsObject)
/-- Array of JSON values. -/
inductive JsArray where
  | nil
  | cons (v : JsValue) (rest : JsArray)
/-- Object fields in insertion order. -/
inductive JsObject where
  | nil
  | cons (key : String) (v : JsValue) (rest : JsObject)
end

/-- JavaScript truthiness of a `JsValue` (empty arrays and objects are
truthy). -/
def truthy : JsValue → Bool
  | .null => false
  | .bool b => b
  | .num n => decide (n ≠ 0)
  | .str s => decide (s ≠ "")
  | .arr _ => true
  | .obj _ => true

mutual
/-- JSON serialization (`JSON.stringify`); string escaping is omitted since
no claim depends on the rendering of individual characters. -/
def jsonStringify : JsValue → String
  | .null => "null"
  | .bool true => "true"
  | .bool false => "false"
  | .num n => toString n
  | .str s => "\"" ++ s ++ "\""
  | .arr xs => "[" ++ jsonStringifyArr xs ++ "]"
  | .obj fs => "\x7b" ++ jsonStringifyObj fs ++ "\x7d"
/-- Comma-separated serialization of array elements. -/
def jsonStringifyArr : JsArray → String
  | .nil => ""
  | .cons v .nil => jsonStringify v
  | .cons v rest => jsonStringify v ++ "," ++ jsonStringifyArr rest
/-- Comma-separated serialization of object fields. -/
def jsonStringifyObj : JsObject → String
  | .nil => ""
  | .cons k v .nil => "\"" ++ k ++ "\":" ++ jsonStringify v
  | .cons k v rest => "\"" ++ k ++ "\":" ++ jsonStringify v ++ "," ++ jsonStringifyObj rest
end

/-- Lookup of an object field (`undefined` is `none`). -/
def JsObject.get : JsObject → String → Option JsValue
  | .nil, _ => none
  | .cons k v rest, key => if k = key then some v else rest.get key

/-- Property access `v[key]` on a value that may not be an object. -/
def objGet (v : JsValue) (key : String) : Option JsValue :=
  match v with
  | .obj fs => fs.get key
  | _ => none

/-- First element of an array value (`xs[0]`). -/
def arrFirst : JsValue → Option JsValue
  | .arr (.cons v _) => some v
  | _ => none

/-- Data attached to a rejected axios call that carries a provider response:
the HTTP status, the two rate-limit headers read by the GitHub service (the
reset header is carried already rendered as the timestamp string the source
builds from it), and the `error_id` of a StackOverflow error body. -/
structure HttpErrorInfo where
  status : Int
  rateLimitRemaining : Option String
  rateLimitReset : String
  errorId : Option Int
deriving Repr, DecidableEq

/-- A JavaScript error value: either a plain `new Error(message)` or an
axios rejection carrying a provider response. -/
inductive JsError where
  | basic (message : String)
  | http (message : String) (response : HttpErrorInfo)
deriving Repr, DecidableEq

/-- The `message` property of an error. -/
def jsMessage : JsError → String
  | .basic m => m
  | .http m _ => m

/-- The module-level `cache = { data: {}, timestamps: {} }` object. -/
structure Cache where
  data : String → Option JsValue
  timestamps : String → Option Int

/-- The initial empty cache. -/
def Cache.empty : Cache := ⟨fun _ => none, fun _ => none⟩

/-- The store performed on a successful fetch:
`cache.data[cacheKey] = payload; cache.timestamps[cacheKey] = now`. -/
def Cache.store (c : Cache) (key : String) (v : JsValue) (now : Int) : Cache :=
  ⟨fun k => if k = key then some v else c.data k,
   fun k => if k = key then some now else c.timestamps k⟩

/-- The freshness test
`cache.data[cacheKey] && now - cache.timestamps[cacheKey] < CACHE_DURATION * 1000`:
the stored payload must be truthy and the entry younger than the duration (a
missing timestamp yields `NaN` comparisons, hence false). -/
def Cache.fresh (c : Cache) (key : String) (now cacheDuration : Int) : Bool :=
  match c.data key with
  | some v => truthy v &&
      (match c.timestamps key with
       | some t => decide (now - t < cacheDuration * 1000)
       | none => false)
  | none => false

namespace GitHubService

/-- The key expression `${endpoint}_${token || 'anonymous'}`: a missing or
empty (falsy) token falls back to the literal string `anonymous`. -/
def effectiveCredential : Option String → String
  | some s => if s = "" then "anonymous" else s
  | none => "anonymous"

/-- Cache key of `GitHubService.cachedRequest`. -/
def cacheKey (endpoint : String) (token : Option String) : String :=
  endpoint ++ "_" ++ effectiveCredential token

/-- The `catch` block of `GitHubService.cachedRequest`: a 403 response whose
`x-ratelimit-remaining` header is the string `0` is replaced by a fresh
`Error` naming the reset time; every other error is rethrown as is. -/
def handleError (e : JsError) : JsError :=
  match e with
  | .http _ r =>
    if r.status = 403 ∧ r.rateLimitRemaining = some "0" then
      .basic ("GitHub API rate limit exceeded. Resets at " ++ r.rateLimitReset)
    else e
  | .basic _ => e

/-- Embedding of `GitHubService.cachedRequest` (github.service.js lines
52-91).  `fetchResult` is the outcome the axios GET would have at this
moment; the third component counts how many times the fetch was invoked.
The source binds the key once; it is spelled out here in each branch. -/
def cachedRequest (endpoint : String) (token : Option String) (now cacheDuration : Int)
    (fetchResult : Except JsError JsValue) (c : Cache) :
    Except JsError JsValue × Cache × Nat :=
  if Cache.fresh c (cacheKey endpoint token) now cacheDuration = true then
    (.ok ((c.data (cacheKey endpoint token)).getD .null), c, 0)
  else
    match fetchResult with
    | .ok v => (.ok v, c.store (cacheKey endpoint token) v now, 1)
    | .error e => (.error (handleError e), c, 1)

end GitHubService

namespace StackOverflowService

/-- Cache key of `StackOverflowService.cachedRequest`:
`${endpoint}_${JSON.stringify(params)}`. -/
def cacheKey (endpoint : String) (params : JsObject) : String :=
  endpoint ++ "_" ++ jsonStringify (.obj params)

/-- The `catch` block of `StackOverflowService.cachedRequest`: a response
whose body carries `error_id === 502` is replaced by a fresh quota `Error`;
every other error is rethrown as is. -/
def handleError (e : JsError) : JsError :=
  match e with
  | .http _ r =>
    if r.errorId = some 502 then .basic "StackOverflow API quota exceeded" else e
  | .basic _ => e

/-- Embedding of `StackOverflowService.cachedRequest` (lines 27-68 of the
service).  The default parameters merged into the outgoing request
(`site`, `key`) only shape the network call, which the model represents by
the `fetchResult` argument; they do not enter the cache key. -/
def cachedRequest (endpoint : String) (params : JsObject) (now cacheDuration : Int)
    (fetchResult : Except JsError JsValue) (c : Cache) :
    Except JsError JsValue × Cache × Nat :=
  if Cache.fresh c (cacheKey endpoint params) now cacheDuration = true then
    (.ok ((c.data (cacheKey endpoint params)).getD .null), c, 0)
  else
    match fetchResult with
    | .ok v => (.ok v, c.store (cacheKey endpoint params) v now, 1)
    | .error e => (.error (handleError e), c, 1)

end StackOverflowService

namespace GitHubService

/-- Embedding of `GitHubService.getUserProfile`. -/
def getUserProfile (username : String) (token : Option String) (now cacheDuration : Int)
    (fetchResult : Except JsError JsValue) (c : Cache) :
    Except JsError JsValue × Cache × Nat :=
  cachedRequest ("/users/" ++ username) token now cacheDuration fetchResult c

/-- Embedding of `GitHubService.getUserRepositories` (default limit 10). -/
def getUserRepositories (username : String) (token : Option String) (limit : Nat)
    (now cacheDuration : Int) (fetchResult : Except JsError JsValue) (c : Cache) :
    Except JsError JsValue × Cache × Nat :=
  cachedRequest ("/users/" ++ username ++ "/repos?sort=updated&per_page=" ++ toString limit)
    token now cacheDuration fetchResult c

/-- The `if (response.data.errors)` check shared by the two GraphQL readers:
a truthy `errors` value yields `new Error(errors[0].message)`.  A missing or
non-string message is rendered as the empty message; no claim depends on that
rendering. -/
def graphqlErrorsOf (body : JsValue) : Option String :=
  match objGet body "errors" with
  | some errs =>
    if truthy errs = true then
      some (match arrFirst errs >>= fun e => objGet e "message" with
            | some (.str m) => m
            | _ => "")
    else none
  | none => none

/-- Extraction step of `getPinnedRepositories`: the `errors` check followed
by `response.data.data.user.pinnedItems.nodes`; a property access on a
missing object is the thrown `TypeError` (caught by the enclosing `catch`). -/
def pinnedFromGraphql (body : JsValue) : Except JsError JsValue :=
  match graphqlErrorsOf body with
  | some m => .error (.basic m)
  | none =>
    match objGet body "data" >>= fun d => objGet d "user" >>= fun u =>
          objGet u "pinnedItems" >>= fun p => objGet p "nodes" with
    | some nodes => .ok nodes
    | none => .error (.basic "TypeError")

/-- Embedding of `GitHubService.getPinnedRepositories` (lines 124-172): the
GraphQL POST is not cached; on any failure inside the `try` block (transport
rejection, `errors` field, extraction) the `catch` falls back to
`getUserRepositories(username, token, 6)`. -/
def getPinnedRepositories (graphqlResult : Except JsError JsValue)
    (username : String) (token : Option String) (now cacheDuration : Int)
    (fallbackFetchResult : Except JsError JsValue) (c : Cache) :
    Except JsError JsValue × Cache × Nat :=
  match graphqlResult with
  | .ok body =>
    match pinnedFromGraphql body with
    | .ok nodes => (.ok nodes, c, 0)
    | .error _ => getUserRepositories username token 6 now cacheDuration fallbackFetchResult c
  | .error _ => getUserRepositories username token 6 now cacheDuration fallbackFetchResult c

/-- Extraction step of `getContributionData`: the `errors` check followed by
`response.data.data.user.contributionsCollection.contributionCalendar`. -/
def contribFromGraphql (body : JsValue) : Except JsError JsValue :=
  match graphqlErrorsOf body with
  | some m => .error (.basic m)
  | none =>
    match objGet body "data" >>= fun d => objGet d "user" >>= fun u =>
          objGet u "contributionsCollection" >>= fun cc =>
          objGet cc "contributionCalendar" with
    | some cal => .ok cal
    | none => .error (.basic "TypeError")

/-- Embedding of `GitHubService.getContributionData` (lines 180-222): not
cached; any failure is wrapped in
`Error("Failed to fetch contribution data: " + error.message)`. -/
def getContributionData (graphqlResult : Except JsError JsValue) : Except JsError JsValue :=
  match (match graphqlResult with
         | .ok body => contribFromGraphql body
         | .error e => .error e) with
  | .ok cal => .ok cal
  | .error e => .error (.basic ("Failed to fetch contribution data: " ++ jsMessage e))

/-- The composite payload `{ profile, repositories, pinnedRepositories,
contributions }`. -/
structure ComprehensiveProfile where
  profile : JsValue
  repositories : JsValue
  pinnedRepositories : JsValue
  contributions : JsValue

/-- Embedding of `GitHubService.getComprehensiveProfile` (lines 230-249).
The source issues the four facet calls through one `Promise.all` against the
shared module cache; the facet keys are distinct endpoint strings, so the
concurrent interleaving never affects the results and the model threads the
cache in array order.  When several facets reject, `Promise.all` rejects
with the first settled rejection; the model picks the first in array order
(the theorems below only exercise single-failure scenarios, where the two
coincide).  Any rejection is wrapped in
`Error("Failed to fetch GitHub profile: " + error.message)`. -/
def getComprehensiveProfile (username : String) (token : Option String)
    (now cacheDuration : Int)
    (profileFetch reposFetch pinnedGraphql fallbackFetch contribGraphql :
      Except JsError JsValue) (c : Cache) :
    Except JsError ComprehensiveProfile × Cache :=
  let pr := getUserProfile username token now cacheDuration profileFetch c
  let rr := getUserRepositories username token 10 now cacheDuration reposFetch pr.2.1
  let pin := getPinnedRepositories pinnedGraphql username token now cacheDuration
    fallbackFetch rr.2.1
  let cb := getContributionData contribGraphql
  match pr.1, rr.1, pin.1, cb with
  | .ok p, .ok r, .ok pn, .ok cal => (.ok ⟨p, r, pn, cal⟩, pin.2.1)
  | .error e, _, _, _ =>
    (.error (.basic ("Failed to fetch GitHub profile: " ++ jsMessage e)), pin.2.1)
  | _, .error e, _, _ =>
    (.error (.basic ("Failed to fetch GitHub profile: " ++ jsMessage e)), pin.2.1)
  | _, _, .error e, _ =>
    (.error (.basic ("Failed to fetch GitHub profile: " ++ jsMessage e)), pin.2.1)
  | _, _, _, .error e =>
    (.error (.basic ("Failed to fetch GitHub profile: " ++ jsMessage e)), pin.2.1)

end GitHubService

/-- A well-formed GraphQL response body for the pinned-items query, wrapping
the `nodes` array. -/
def mkPinnedBody (nodes : JsValue) : JsValue :=
  .obj (.cons "data"
    (.obj (.cons "user"
      (.obj (.cons "pinnedItems"
        (.obj (.cons "nodes" nodes .nil)) .nil)) .nil)) .nil)

/-- A well-formed GraphQL response body for the contributions query, wrapping
the `contributionCalendar` value. -/
def mkContribBody (cal : JsValue) : JsValue :=
  .obj (.cons "data"
    (.obj (.cons "user"
      (.obj (.cons "contributionsCollection"
        (.obj (.cons "contributionCalendar" cal .nil)) .nil)) .nil)) .nil)

/-! ## Cache lemmas shared by the cache claims -/

theorem fresh_empty (key : String) (now dur : Int) :
    Cache.fresh Cache.empty key now dur = false := rfl

theorem fresh_store_ne (c : Cache) (key k : String) (v : JsValue) (tstore now dur : Int)
    (h : k ≠ key) :
    Cache.fresh (c.store key v tstore) k now dur = Cache.fresh c k now dur := by
  simp [Cache.fresh, Cache.store, h]

theorem fresh_store_self (c : Cache) (key : String) (v : JsValue) (tstore now dur : Int) :
    Cache.fresh (c.store key v tstore) key now dur =
      (truthy v && decide (now - tstore < dur * 1000)) := by
  simp [Cache.fresh, Cache.store]

/-- C2 amended: starting from the empty cache, the first call invokes the
fetch exactly once and returns its payload; provided that payload is truthy
(the freshness test of the source evaluates the stored payload for
truthiness), a second call with the same descriptor inside the freshness
window invokes the fetch zero additional times and returns the stored
payload, whatever the second fetch outcome would have been.  Stated for both
the GitHub and the StackOverflow service. -/
theorem cachedRequest_first_then_fresh_hit (endpoint : String) (token : Option String)
    (params : JsObject) (now1 now2 dur : Int) (v : JsValue) (f2 : Except JsError JsValue)
    (hv : truthy v = true) (hfresh : now2 - now1 < dur * 1000) :
    ((GitHubService.cachedRequest endpoint token now1 dur (.ok v) Cache.empty).1 = .ok v ∧
     (GitHubService.cachedRequest endpoint token now1 dur (.ok v) Cache.empty).2.2 = 1 ∧
     (GitHubService.cachedRequest endpoint token now2 dur f2
        (GitHubService.cachedRequest endpoint token now1 dur (.ok v) Cache.empty).2.1).1 =
       .ok v ∧
     (GitHubService.cachedRequest endpoint token now2 dur f2
        (GitHubService.cachedRequest endpoint token now1 dur (.ok v) Cache.empty).2.1).2.2 =
       0) ∧
    ((StackOverflowService.cachedRequest endpoint params now1 dur (.ok v) Cache.empty).1 =
       .ok v ∧
     (StackOverflowService.cachedRequest endpoint params now1 dur (.ok v) Cache.empty).2.2 =
       1 ∧
     (StackOverflowService.cachedRequest endpoint params now2 dur f2
        (StackOverflowService.cachedRequest endpoint params now1 dur (.ok v)
          Cache.empty).2.1).1 = .ok v ∧
     (StackOverflowService.cachedRequest endpoint params now2 dur f2
        (StackOverflowService.cachedRequest endpoint params now1 dur (.ok v)
          Cache.empty).2.1).2.2 = 0) := by
  have hgh :
      Cache.fresh (Cache.store Cache.empty (GitHubService.cacheKey endpoint token) v now1)
        (GitHubService.cacheKey endpoint token) now2 dur = true := by
    rw [fresh_store_self, hv]
    simp [hfresh]
  have hso :
      Cache.fresh
        (Cache.store Cache.empty (StackOverflowService.cacheKey endpoint params) v now1)
        (StackOverflowService.cacheKey endpoint params) now2 dur = true := by
    rw [fresh_store_self, hv]
    simp [hfresh]
  refine ⟨⟨rfl, rfl, ?_, ?_⟩, ⟨rfl, rfl, ?_, ?_⟩⟩
  · have hc1 : (GitHubService.cachedRequest endpoint token now1 dur (.ok v) Cache.empty).2.1 =
        Cache.store Cache.empty (GitHubService.cacheKey endpoint token) v now1 := rfl
    rw [hc1, GitHubService.cachedRequest.eq_def, if_pos hgh]
    simp [Cache.store]
  · have hc1 : (GitHubService.cachedRequest endpoint token now1 dur (.ok v) Cache.empty).2.1 =
        Cache.store Cache.empty (GitHubService.cacheKey endpoint token) v now1 := rfl
    rw [hc1, GitHubService.cachedRequest.eq_def, if_pos hgh]
  · have hc1 :
        (StackOverflowService.cachedRequest endpoint params now1 dur (.ok v) Cache.empty).2.1 =
        Cache.store Cache.empty (StackOverflowService.cacheKey endpoint params) v now1 := rfl
    rw [hc1, StackOverflowService.cachedRequest.eq_def, if_pos hso]
    simp [Cache.store]
  · have hc1 :
        (StackOverflowService.cachedRequest endpoint params now1 dur (.ok v) Cache.empty).2.1 =
        Cache.store Cache.empty (StackOverflowService.cacheKey endpoint params) v now1 := rfl
    rw [hc1, StackOverflowService.cachedRequest.eq_def, if_pos hso]

/-- Witness for `cachedRequest_first_then_fresh_hit` at a concrete descriptor
and payload. -/
theorem cachedRequest_first_then_fresh_hit_witness :
    truthy (.obj (.cons "login" (.str "octocat") .nil)) = true ∧
    (1 : Int) - 0 < 3600 * 1000 ∧
    (GitHubService.cachedRequest "/users/octocat" none 1 3600 (.ok .null)
      (GitHubService.cachedRequest "/users/octocat" none 0 3600
        (.ok (.obj (.cons "login" (.str "octocat") .nil))) Cache.empty).2.1).1 =
      .ok (.obj (.cons "login" (.str "octocat") .nil)) :=
  ⟨by decide, by decide,
   (cachedRequest_first_then_fresh_hit "/users/octocat" none .nil 0 1 3600
      (.obj (.cons "login" (.str "octocat") .nil)) (.ok .null)
      (by decide) (by decide)).1.2.2.1⟩

/-- C2 counterexample: the claim quantifies over every fetch function, but a
fetch returning the (falsy) JSON payload `null` breaks it: the first call
stores `null`, yet the second call inside the freshness window fails the
truthiness part of `cache.data[cacheKey] && ...`, invokes the fetch again (a
second invocation where the claim requires zero), and returns the new fetch
outcome rather than the stored payload. -/
theorem cachedRequest_falsy_payload_refetches :
    (GitHubService.cachedRequest "/users/octocat" none 0 3600 (.ok .null) Cache.empty).1 =
      .ok .null ∧
    (GitHubService.cachedRequest "/users/octocat" none 0 3600 (.ok .null) Cache.empty).2.2 =
      1 ∧
    (GitHubService.cachedRequest "/users/octocat" none 1 3600 (.ok (.str "other"))
      (GitHubService.cachedRequest "/users/octocat" none 0 3600 (.ok .null)
        Cache.empty).2.1).2.2 = 1 ∧
    (GitHubService.cachedRequest "/users/octocat" none 1 3600 (.ok (.str "other"))
      (GitHubService.cachedRequest "/users/octocat" none 0 3600 (.ok .null)
        Cache.empty).2.1).1 = .ok (.str "other") :=
  ⟨rfl, rfl, rfl, rfl⟩

/-- C9: when the fetch inside a cached request fails, the call rejects and
the cache (payload map and timestamp map alike) is exactly what it was
before the call — in particular a pre-existing stale entry under the same
key is neither deleted nor overwritten.  The hypotheses say the freshness
test failed, which is the only way the fetch runs at all.  Stated for both
services. -/
theorem cachedRequest_error_preserves_cache (endpoint : String) (token : Option String)
    (params : JsObject) (now dur : Int) (e e' : JsError) (c c' : Cache)
    (hgh : Cache.fresh c (GitHubService.cacheKey endpoint token) now dur = false)
    (hso : Cache.fresh c' (StackOverflowService.cacheKey endpoint params) now dur = false) :
    ((GitHubService.cachedRequest endpoint token now dur (.error e) c).2.1 = c ∧
     ∃ err, (GitHubService.cachedRequest endpoint token now dur (.error e) c).1 =
       .error err) ∧
    ((StackOverflowService.cachedRequest endpoint params now dur (.error e') c').2.1 = c' ∧
     ∃ err, (StackOverflowService.cachedRequest endpoint params now dur (.error e') c').1 =
       .error err) := by
  constructor
  · rw [GitHubService.cachedRequest.eq_def, hgh]
    exact ⟨rfl, GitHubService.handleError e, rfl⟩
  · rw [StackOverflowService.cachedRequest.eq_def, hso]
    exact ⟨rfl, StackOverflowService.handleError e', rfl⟩

/-- Witness for `cachedRequest_error_preserves_cache`: a stale truthy entry
stored at time 0 with the clock at 4000000 ms (past the 3600 s window)
survives the failed refresh on both services. -/
theorem cachedRequest_error_preserves_cache_witness :
    Cache.fresh
      (Cache.store Cache.empty (GitHubService.cacheKey "/users/octocat" none)
        (.str "cached") 0)
      (GitHubService.cacheKey "/users/octocat" none) 4000000 3600 = false ∧
    Cache.fresh
      (Cache.store Cache.empty (StackOverflowService.cacheKey "/users/1" .nil)
        (.str "cached") 0)
      (StackOverflowService.cacheKey "/users/1" .nil) 4000000 3600 = false ∧
    (GitHubService.cachedRequest "/users/octocat" none 4000000 3600 (.error (.basic "boom"))
      (Cache.store Cache.empty (GitHubService.cacheKey "/users/octocat" none)
        (.str "cached") 0)).2.1 =
      Cache.store Cache.empty (GitHubService.cacheKey "/users/octocat" none)
        (.str "cached") 0 :=
  ⟨by decide, by decide,
   (cachedRequest_error_preserves_cache "/users/octocat" none .nil 4000000 3600
      (.basic "boom") (.basic "boom")
      (Cache.store Cache.empty (GitHubService.cacheKey "/users/octocat" none)
        (.str "cached") 0)
      (Cache.store Cache.empty (StackOverflowService.cacheKey "/users/1" .nil)
        (.str "cached") 0)
      (by decide) (by decide)).1.1⟩

/-- C5 counterexample: the claim says the fetch error is propagated
unchanged with no different error value substituted.  For a 403 rejection
whose `x-ratelimit-remaining` header is `0`, the source substitutes a fresh
`Error` describing the rate limit: the propagated error differs from the
fetch error. -/
theorem cachedRequest_rate_limit_error_translated :
    (GitHubService.cachedRequest "/users/octocat" none 0 3600
      (.error (.http "Request failed with status code 403"
        ⟨403, some "0", "2026-01-01T00:00:00.000Z", none⟩)) Cache.empty).1 =
      .error (.basic "GitHub API rate limit exceeded. Resets at 2026-01-01T00:00:00.000Z") ∧
    JsError.basic "GitHub API rate limit exceeded. Resets at 2026-01-01T00:00:00.000Z" ≠
      .http "Request failed with status code 403"
        ⟨403, some "0", "2026-01-01T00:00:00.000Z", none⟩ :=
  ⟨rfl, by decide⟩

/-- C5 amended: when the fetch fails, the cached request rejects after
exactly one fetch invocation (no retry), stores nothing, and propagates the
fetch error unchanged — except that a GitHub 403 rejection whose
`x-ratelimit-remaining` header is the string `0` is replaced by a
rate-limit `Error`, and a StackOverflow rejection whose body carries
`error_id 502` is replaced by a quota `Error`. -/
theorem cachedRequest_error_propagation (endpoint : String) (token : Option String)
    (params : JsObject) (now dur : Int) (e e' : JsError) (c c' : Cache)
    (hgh : Cache.fresh c (GitHubService.cacheKey endpoint token) now dur = false)
    (hso : Cache.fresh c' (StackOverflowService.cacheKey endpoint params) now dur = false) :
    ((GitHubService.cachedRequest endpoint token now dur (.error e) c).1 =
       .error (GitHubService.handleError e) ∧
     (GitHubService.cachedRequest endpoint token now dur (.error e) c).2.1 = c ∧
     (GitHubService.cachedRequest endpoint token now dur (.error e) c).2.2 = 1) ∧
    ((StackOverflowService.cachedRequest endpoint params now dur (.error e') c').1 =
       .error (StackOverflowService.handleError e') ∧
     (StackOverflowService.cachedRequest endpoint params now dur (.error e') c').2.1 = c' ∧
     (StackOverflowService.cachedRequest endpoint params now dur (.error e') c').2.2 = 1) ∧
    (∀ m, GitHubService.handleError (.basic m) = .basic m) ∧
    (∀ m r, ¬(r.status = 403 ∧ r.rateLimitRemaining = some "0") →
      GitHubService.handleError (.http m r) = .http m r) ∧
    (∀ m, StackOverflowService.handleError (.basic m) = .basic m) ∧
    (∀ m r, r.errorId ≠ some 502 →
      StackOverflowService.handleError (.http m r) = .http m r) := by
  refine ⟨?_, ?_, fun m => rfl, fun m r h => ?_, fun m => rfl, fun m r h => ?_⟩
  · rw [GitHubService.cachedRequest.eq_def, hgh]
    exact ⟨rfl, rfl, rfl⟩
  · rw [StackOverflowService.cachedRequest.eq_def, hso]
    exact ⟨rfl, rfl, rfl⟩
  · simp [GitHubService.handleError, h]
  · simp [StackOverflowService.handleError, h]

/-- Witness for `cachedRequest_error_propagation`: a plain connection error
reaches the caller unchanged on the empty cache. -/
theorem cachedRequest_error_propagation_witness :
    Cache.fresh Cache.empty (GitHubService.cacheKey "/users/octocat" none) 0 3600 = false ∧
    Cache.fresh Cache.empty (StackOverflowService.cacheKey "/users/1" .nil) 0 3600 = false ∧
    (GitHubService.cachedRequest "/users/octocat" none 0 3600
      (.error (.basic "ECONNREFUSED")) Cache.empty).1 = .error (.basic "ECONNREFUSED") :=
  ⟨by decide, by decide,
   (cachedRequest_error_propagation "/users/octocat" none .nil 0 3600
      (.basic "ECONNREFUSED") (.basic "ECONNREFUSED") Cache.empty Cache.empty
      (by decide) (by decide)).1.1⟩

/-- C4 counterexample: the claim says two calls that differ only in the
caller credential never share a cache entry.  A call authenticated with the
literal token `anonymous` and an unauthenticated call build the same key
`${endpoint}_anonymous`: the anonymous caller is served the payload fetched
and cached under the `anonymous` credential, with zero fetch invocations. -/
theorem cachedRequest_anonymous_token_collides :
    (GitHubService.cachedRequest "/users/octocat" none 1 3600 (.ok (.str "fresh"))
      (GitHubService.cachedRequest "/users/octocat" (some "anonymous") 0 3600
        (.ok (.obj (.cons "private" (.bool true) .nil))) Cache.empty).2.1).1 =
      .ok (.obj (.cons "private" (.bool true) .nil)) ∧
    (GitHubService.cachedRequest "/users/octocat" none 1 3600 (.ok (.str "fresh"))
      (GitHubService.cachedRequest "/users/octocat" (some "anonymous") 0 3600
        (.ok (.obj (.cons "private" (.bool true) .nil))) Cache.empty).2.1).2.2 = 0 ∧
    (some "anonymous" : Option String) ≠ none :=
  ⟨rfl, rfl, by decide⟩

theorem cacheKey_suffix_inj (e a b : String) (h : e ++ "_" ++ a = e ++ "_" ++ b) :
    a = b := by
  have hd := congrArg String.data h
  rw [String.data_append, String.data_append] at hd
  exact String.ext (List.append_cancel_left hd)

/-- C4 amended: two calls for the same endpoint are isolated from each other
whenever their effective credential identities differ, where the effective
identity of a token is the token itself for a non-empty token and the
literal string `anonymous` for a missing or empty one.  After a call under
`t1` cached its payload, a call under `t2` performs its own fetch, returns
that fetch result, and afterwards the two credentials hold two distinct
entries.  (An authenticated token equal to the literal string `anonymous`
has the same effective identity as the anonymous caller and is excluded.) -/
theorem cachedRequest_distinct_credentials_isolated (endpoint : String)
    (t1 t2 : Option String) (now1 now2 dur : Int) (v w : JsValue)
    (hne : GitHubService.effectiveCredential t1 ≠ GitHubService.effectiveCredential t2) :
    (GitHubService.cachedRequest endpoint t2 now2 dur (.ok w)
       (GitHubService.cachedRequest endpoint t1 now1 dur (.ok v) Cache.empty).2.1).1 =
      .ok w ∧
    (GitHubService.cachedRequest endpoint t2 now2 dur (.ok w)
       (GitHubService.cachedRequest endpoint t1 now1 dur (.ok v) Cache.empty).2.1).2.2 = 1 ∧
    ((GitHubService.cachedRequest endpoint t2 now2 dur (.ok w)
       (GitHubService.cachedRequest endpoint t1 now1 dur (.ok v) Cache.empty).2.1).2.1).data
      (GitHubService.cacheKey endpoint t1) = some v ∧
    ((GitHubService.cachedRequest endpoint t2 now2 dur (.ok w)
       (GitHubService.cachedRequest endpoint t1 now1 dur (.ok v) Cache.empty).2.1).2.1).data
      (GitHubService.cacheKey endpoint t2) = some w := by
  have hkey : GitHubService.cacheKey endpoint t2 ≠ GitHubService.cacheKey endpoint t1 :=
    fun h => hne (cacheKey_suffix_inj endpoint _ _ h).symm
  have hc1 : (GitHubService.cachedRequest endpoint t1 now1 dur (.ok v) Cache.empty).2.1 =
      Cache.store Cache.empty (GitHubService.cacheKey endpoint t1) v now1 := rfl
  have hmiss : Cache.fresh
      (Cache.store Cache.empty (GitHubService.cacheKey endpoint t1) v now1)
      (GitHubService.cacheKey endpoint t2) now2 dur = false := by
    rw [fresh_store_ne _ _ _ _ _ _ _ hkey]
    rfl
  rw [hc1, GitHubService.cachedRequest.eq_def, hmiss]
  refine ⟨rfl, rfl, ?_, ?_⟩
  · simp [Cache.store, hkey, Ne.symm hkey]
  · simp [Cache.store]

/-- Witness for `cachedRequest_distinct_credentials_isolated`: an
authenticated and an anonymous call for the same endpoint keep separate
entries. -/
theorem cachedRequest_distinct_credentials_isolated_witness :
    GitHubService.effectiveCredential (some "tokA") ≠
      GitHubService.effectiveCredential none ∧
    (GitHubService.cachedRequest "/users/octocat" none 1 3600 (.ok (.str "B"))
       (GitHubService.cachedRequest "/users/octocat" (some "tokA") 0 3600
         (.ok (.str "A")) Cache.empty).2.1).1 = .ok (.str "B") :=
  ⟨by decide,
   (cachedRequest_distinct_credentials_isolated "/users/octocat" (some "tokA") none 0 1 3600
      (.str "A") (.str "B") (by decide)).1⟩

/-! ## Composite-profile policy (C3) -/

theorem cacheKey_len_ne (e1 e2 : String) (t : Option String)
    (h : e1.length ≠ e2.length) :
    GitHubService.cacheKey e1 t ≠ GitHubService.cacheKey e2 t := by
  intro hc
  apply h
  have hl := congrArg String.length hc
  simp only [GitHubService.cacheKey, String.length_append] at hl
  omega

theorem repos10Key_ne_profileKey (u : String) (t : Option String) :
    GitHubService.cacheKey ("/users/" ++ u ++ "/repos?sort=updated&per_page=" ++ toString 10) t ≠
      GitHubService.cacheKey ("/users/" ++ u) t := by
  apply cacheKey_len_ne
  simp only [String.length_append]
  have ha : "/repos?sort=updated&per_page=".length = 29 := rfl
  have hb : (toString (10 : Nat)).length = 2 := rfl
  omega

theorem repos6Key_ne_profileKey (u : String) (t : Option String) :
    GitHubService.cacheKey ("/users/" ++ u ++ "/repos?sort=updated&per_page=" ++ toString 6) t ≠
      GitHubService.cacheKey ("/users/" ++ u) t := by
  apply cacheKey_len_ne
  simp only [String.length_append]
  have ha : "/repos?sort=updated&per_page=".length = 29 := rfl
  have hb : (toString (6 : Nat)).length = 1 := rfl
  omega

theorem repos6Key_ne_repos10Key (u : String) (t : Option String) :
    GitHubService.cacheKey ("/users/" ++ u ++ "/repos?sort=updated&per_page=" ++ toString 6) t ≠
      GitHubService.cacheKey ("/users/" ++ u ++ "/repos?sort=updated&per_page=" ++ toString 10) t := by
  apply cacheKey_len_ne
  simp only [String.length_append]
  have ha : (toString (6 : Nat)).length = 1 := rfl
  have hb : (toString (10 : Nat)).length = 2 := rfl
  omega

/-- C3 amended: a facet rejection other than pinned items fails the whole
composite call with an `Error` whose message prefixes the facet failure's
message with `Failed to fetch GitHub profile: ` (for the contributions facet
the message is already wrapped once by `getContributionData`), and the
`Except` result carries no partial payload; a rejection of only the
pinned-items GraphQL fetch leaves the composite successful, with the payload
of the fallback fetch (`/users/:u/repos?sort=updated&per_page=6`, the
most-recently-updated repositories, limit 6) in the pinned-items slot. -/
theorem getComprehensiveProfile_policy (u : String) (t : Option String) (now dur : Int)
    (p r pin fb cal : JsValue) (e ec ge : JsError) :
    (GitHubService.getComprehensiveProfile u t now dur (.error e) (.ok r)
       (.ok (mkPinnedBody pin)) (.ok fb) (.ok (mkContribBody cal)) Cache.empty).1 =
      .error (.basic ("Failed to fetch GitHub profile: " ++
        jsMessage (GitHubService.handleError e))) ∧
    (GitHubService.getComprehensiveProfile u t now dur (.ok p) (.error e)
       (.ok (mkPinnedBody pin)) (.ok fb) (.ok (mkContribBody cal)) Cache.empty).1 =
      .error (.basic ("Failed to fetch GitHub profile: " ++
        jsMessage (GitHubService.handleError e))) ∧
    (GitHubService.getComprehensiveProfile u t now dur (.ok p) (.ok r)
       (.ok (mkPinnedBody pin)) (.ok fb) (.error ec) Cache.empty).1 =
      .error (.basic ("Failed to fetch GitHub profile: " ++
        ("Failed to fetch contribution data: " ++ jsMessage ec))) ∧
    (GitHubService.getComprehensiveProfile u t now dur (.ok p) (.ok r)
       (.error ge) (.ok fb) (.ok (mkContribBody cal)) Cache.empty).1 =
      .ok ⟨p, r, fb, cal⟩ := by
  have hfrR : Cache.fresh
      (Cache.store Cache.empty (GitHubService.cacheKey ("/users/" ++ u) t) p now)
      (GitHubService.cacheKey
        ("/users/" ++ u ++ "/repos?sort=updated&per_page=" ++ toString 10) t) now dur =
      false := by
    rw [fresh_store_ne _ _ _ _ _ _ _ (repos10Key_ne_profileKey u t)]
    rfl
  have hfr6 : Cache.fresh
      (Cache.store
        (Cache.store Cache.empty (GitHubService.cacheKey ("/users/" ++ u) t) p now)
        (GitHubService.cacheKey
          ("/users/" ++ u ++ "/repos?sort=updated&per_page=" ++ toString 10) t) r now)
      (GitHubService.cacheKey
        ("/users/" ++ u ++ "/repos?sort=updated&per_page=" ++ toString 6) t) now dur =
      false := by
    rw [fresh_store_ne _ _ _ _ _ _ _ (repos6Key_ne_repos10Key u t),
      fresh_store_ne _ _ _ _ _ _ _ (repos6Key_ne_profileKey u t)]
    rfl
  refine ⟨rfl, ?_, ?_, ?_⟩
  · simp [GitHubService.getComprehensiveProfile, GitHubService.getUserProfile,
      GitHubService.getUserRepositories, GitHubService.cachedRequest, fresh_empty, hfrR]
  · simp [GitHubService.getComprehensiveProfile, GitHubService.getUserProfile,
      GitHubService.getUserRepositories, GitHubService.cachedRequest, fresh_empty, hfrR,
      GitHubService.getPinnedRepositories, GitHubService.pinnedFromGraphql,
      GitHubService.graphqlErrorsOf, GitHubService.getContributionData,
      GitHubService.contribFromGraphql, mkPinnedBody, objGet, JsObject.get, arrFirst,
      truthy, jsMessage]
  · simp [GitHubService.getComprehensiveProfile, GitHubService.getUserProfile,
      GitHubService.getUserRepositories, GitHubService.cachedRequest, fresh_empty, hfrR,
      hfr6, GitHubService.getPinnedRepositories, GitHubService.getContributionData,
      GitHubService.contribFromGraphql, GitHubService.graphqlErrorsOf, mkContribBody,
      objGet, JsObject.get, arrFirst, truthy, jsMessage]

/-- C3 counterexample: the claim says the composite rejects with the failing
facet's error.  With the profile fetch rejecting with `Error("boom")` and
every other facet succeeding, the composite rejects with the distinct
wrapper `Error("Failed to fetch GitHub profile: boom")`, not with the
facet's error. -/
theorem getComprehensiveProfile_wraps_facet_error :
    (GitHubService.getComprehensiveProfile "octocat" none 0 3600
      (.error (.basic "boom")) (.ok (.str "repos")) (.ok (mkPinnedBody (.str "pins")))
      (.ok (.str "fallback")) (.ok (mkContribBody (.str "cal"))) Cache.empty).1 =
      .error (.basic "Failed to fetch GitHub profile: boom") ∧
    JsError.basic "Failed to fetch GitHub profile: boom" ≠ .basic "boom" :=
  ⟨rfl, by decide⟩
